import Mathlib

/-!
Shallow embedding of the `build.py` build-orchestration script.

Modelling conventions:
* Paths handed to the archiver are lists of components (`List String`); flat
  path strings use `/` as the separator in place of `os.sep`.
* Effectful functions are embedded as trace-producing functions: each external
  action (`subprocess.check_call`, `shutil.rmtree`, `os.makedirs`,
  `zipfile.ZipFile`, `os.chdir`) becomes a constructor of an effect type, and
  the function returns the list of effects it performs in program order.
* Failure (`raise`, a nonzero exit of `subprocess.check_call`, a missing
  environment variable) is embedded with `Except String`.
* Environment lookups (`os.environ`) are a parameter `env : String → Option String`;
  the `CI` indicator `IS_BUILD_MACHINE` is a `Bool` parameter `ci`.
-/

/-- Python's `str.startswith`, embedded over the character lists of the two
strings. -/
def startswith (s pre : String) : Bool :=
  pre.data.isPrefixOf s.data

/-- Model of `get_platform()`: maps `sys.platform` to a platform tag.
`sys.platform.startswith('win')` → `win`, exactly `darwin` → `osx`,
`sys.platform.startswith('linux')` → `linux`, anything else raises
`Exception('Unsupported platform ' + sys.platform)`. -/
def get_platform (sys_platform : String) : Except String String :=
  if startswith sys_platform "win" then .ok "win"
  else if sys_platform = "darwin" then .ok "osx"
  else if startswith sys_platform "linux" then .ok "linux"
  else .error ("Unsupported platform " ++ sys_platform)

/-- The `cd` context manager of `build.py`.  It is a `@contextmanager`
generator with no `try`/`finally` around the `yield`: on normal exit the
generator resumes and runs `os.chdir(old_dir)`, but when the body raises, the
exception is thrown into the generator at the `yield` point and the restoring
`os.chdir(old_dir)` is never executed.  The body is a function from the
directory it runs in to a result together with the working directory it
leaves behind; `cd_run` returns the overall result and the final working
directory of the process. -/
def cd_run {α : Type} (new_dir : String)
    (body : String → Except String α × String) (cwd : String) :
    Except String α × String :=
  if new_dir = "" then
    -- `if new_dir:` is false: no chdir at all, body runs in the current dir
    body cwd
  else
    let old_dir := cwd
    let res := body new_dir
    match res.1 with
    | .ok a => (.ok a, old_dir)
    | .error e => (.error e, res.2)

/-- Splits a filename at its last dot, as `os.path.splitext` does on a bare
filename: returns the characters before the last dot and the extension
starting at that dot, or `none` when the name has no dot. -/
def splitextCore : List Char → Option (List Char × List Char)
  | [] => none
  | c :: rest =>
    match splitextCore rest with
    | some (b, e) => some (c :: b, e)
    | none => if c = '.' then some ([], c :: rest) else none

/-- Extension of a bare filename, as `os.path.splitext(fname)[1]`: the extension including
its leading dot, except that a name whose every character before the last dot
is itself a dot (such as `.bashrc` or `..`) has no extension. -/
def extOf (fname : String) : String :=
  match splitextCore fname.toList with
  | some (b, e) => if b.all (fun c => c = '.') then "" else String.mk e
  | none => ""

/-- One step of `posixpath.normpath` over path components, for a relative
path: it drops empty and `.` components, and a `..` pops the previously kept
component unless there is none (or the previous one is itself a kept `..`).
The accumulator holds the kept components in reverse order. -/
def normSt (acc : List String) (c : String) : List String :=
  if c = "" ∨ c = "." then acc
  else if c = ".." then
    match acc with
    | [] => [".."]
    | a :: rest => if a = ".." then c :: a :: rest else rest
  else c :: acc

/-- Model of `os.path.normpath` on the components of a relative path. -/
def normpath_comps (l : List String) : List String :=
  let r := (l.foldl normSt []).reverse
  if r = [] then ["."] else r

/-! ## build_lib -/

/-- The `initial_cmake` argument list built by `build_lib`:
`cmake`, the script path, the install-prefix override
`-DCMAKE_INSTALL_PREFIX=../install/<build_name>` (via
`os.path.join('..', 'install', build_name)`), `-G <generator>` when a
generator is given, `-DCLANG_FORMAT_SUFFIX=none` on CI builds, and one
`-D<key>=ON/OFF` per options entry in order. -/
def initial_cmake (script_path build_name : String) (generator : Option String)
    (options : List (String × Bool)) (ci : Bool) : List String :=
  ["cmake", script_path,
   "-DCMAKE_INSTALL_PREFIX=" ++ "../install/" ++ build_name]
  ++ (match generator with | some g => ["-G", g] | none => [])
  ++ (if ci then ["-DCLANG_FORMAT_SUFFIX=none"] else [])
  ++ options.map (fun kv => "-D" ++ kv.1 ++ "=" ++ (if kv.2 then "ON" else "OFF"))

/-- The Debug build command `['cmake', '--build', '.', '--config', 'Debug']`. -/
def debug_build_cmd : List String :=
  ["cmake", "--build", ".", "--config", "Debug"]

/-- The Release/install command `['cmake', '--build', '.', '--config', 'Release', '--target', 'install']`. -/
def release_install_cmd : List String :=
  ["cmake", "--build", ".", "--config", "Release", "--target", "install"]

/-- The sequence of external commands `build_lib` issues inside
`cd(build_path)`, in program order: the configuration step, then a Debug
build only when not on a build machine, then the Release/install step. -/
def build_lib_cmds (script_path build_name : String) (generator : Option String)
    (options : List (String × Bool)) (ci : Bool) : List (List String) :=
  [initial_cmake script_path build_name generator options ci]
  ++ (if ci then [] else [debug_build_cmd])
  ++ [release_install_cmd]

/-- Chained `subprocess.check_call`: runs the commands in order against a
success oracle `ok`; the first failing command raises
`CalledProcessError` and nothing after it runs. -/
def run_checked (ok : List String → Bool) : List (List String) → Except String Unit
  | [] => .ok ()
  | c :: rest =>
    if ok c then run_checked ok rest
    else .error ("CalledProcessError: " ++ String.intercalate " " c)

/-- The commands actually invoked by `run_checked`: every command up to and
including the first failing one. -/
def executed_cmds (ok : List String → Bool) : List (List String) → List (List String)
  | [] => []
  | c :: rest => if ok c then c :: executed_cmds ok rest else [c]

/-- Model of `build_lib(build_name, generator, options)` as a working-directory
transformer: it enters `cd(build_path)` with
`build_path = os.path.join(SCRIPT_PATH, 'builds', build_name)` and runs the
command sequence there (the commands themselves never change the working
directory).  The preceding `mkdir_p` calls create directories but do not
touch the working directory, so they are not part of this model.  Returns
the outcome and the final working directory of the process. -/
def build_lib_run (script_path build_name : String) (generator : Option String)
    (options : List (String × Bool)) (ci : Bool) (ok : List String → Bool)
    (cwd : String) : Except String Unit × String :=
  let build_path := script_path ++ "/builds/" ++ build_name
  cd_run build_path
    (fun c => (run_checked ok (build_lib_cmds script_path build_name generator options ci), c))
    cwd

/-! ## cli dispatch -/

/-- The three operations the default `cli` invocation can perform. -/
inductive CliAction : Type
  | libs (clean : Bool)
  | sign
  | archive
deriving DecidableEq, Repr

/-- The `cli` group callback: with no invoked subcommand it invokes
`libs(clean)`, then `sign` when `IS_BUILD_MACHINE`, then `archive`; with a
subcommand, the callback itself invokes nothing (click dispatches the
subcommand separately). -/
def cli_run (invoked_subcommand : Option String) (clean : Bool) (ci : Bool) :
    List CliAction :=
  match invoked_subcommand with
  | none =>
    [CliAction.libs clean]
    ++ (if ci then [CliAction.sign] else [])
    ++ [CliAction.archive]
  | some _ => []

/-! ## archive -/

/-- The destination path of one archived file whose path relative to the
install root has components `comps`: `os.walk('.')` yields the file as
`./c1/…/cn`, and `archive` stores it under
`os.path.normpath(os.path.join('discord-rpc', './c1/…/cn'))`. -/
def archive_dst (comps : List String) : List String :=
  normpath_comps ("discord-rpc" :: "." :: comps)

/-- The (source, destination) pairs `archive` writes, one per file of the
walk, in walk order.  A file is its component path relative to the install
root; its walk source path is `.` followed by those components. -/
def archive_entries (files : List (List String)) : List (List String × List String) :=
  files.map (fun comps => ("." :: comps, archive_dst comps))

/-- The filesystem effects of `archive()`, in program order. -/
inductive ArchiveEffect : Type
  | createZip (path : String)                      -- `ZipFile(path, 'w')`: creates the file, truncating any existing one
  | chdir (path : String)                          -- entering `cd(INSTALL_ROOT)`
  | writeEntry (src : List String) (dst : List String)  -- `archive_file.write(fpath, dst_path)`
deriving DecidableEq, Repr

/-- Model of `archive()`: opens `builds/discord-rpc-<platform>.zip` for writing first,
then enters `cd(INSTALL_ROOT)` and writes one entry per file of the walk.
When the install root does not exist, the `os.chdir` inside `cd` raises after
the zip file has already been created, so the trace stops there with an
error. -/
def archive_run (script_path platform : String) (install_root_exists : Bool)
    (files : List (List String)) : List ArchiveEffect × Except String Unit :=
  let zip_path := script_path ++ "/builds/discord-rpc-" ++ platform ++ ".zip"
  let install_root := script_path ++ "/builds/install"
  if install_root_exists then
    ([ArchiveEffect.createZip zip_path, ArchiveEffect.chdir install_root]
       ++ (archive_entries files).map (fun e => ArchiveEffect.writeEntry e.1 e.2),
     .ok ())
  else
    ([ArchiveEffect.createZip zip_path], .error "FileNotFoundError")

/-! ## sign -/

/-- Model of `get_signtool()`: on `win` the tool lives under the `WindowsSdkDir`
environment variable (a missing variable raises `KeyError`); on `osx` it is
`/usr/bin/codesign`; on any other platform the function falls through and
returns `None`. -/
def get_signtool (platform : String) (env : String → Option String) :
    Except String (Option String) :=
  if platform = "win" then
    match env "WindowsSdkDir" with
    | some sdk_dir => .ok (some (sdk_dir ++ "/bin/x86/signtool.exe"))
    | none => .error "KeyError: WindowsSdkDir"
  else if platform = "osx" then .ok (some "/usr/bin/codesign")
  else .ok none

/-- The signable-extension set per platform: `.dll` on win, `.dylib` on osx,
empty elsewhere. -/
def signable_extensions (platform : String) : List String :=
  if platform = "win" then [".dll"]
  else if platform = "osx" then [".dylib"]
  else []

/-- The fixed signtool command prefix on win. -/
def sign_command_base_win (tool : String) : List String :=
  [tool, "sign", "/n", "Hammer & Chisel Inc.", "/a",
   "/tr", "http://timestamp.digicert.com/rfc3161", "/as",
   "/td", "sha256", "/fd", "sha256"]

/-- The fixed codesign command prefix on osx; `home` stands for the expansion
of `~`. -/
def sign_command_base_osx (tool home : String) : List String :=
  [tool, "--keychain", home ++ "/Library/Keychains/login.keychain",
   "-vvvv", "--deep", "--force",
   "--sign", "Developer ID Application: Hammer & Chisel Inc. (53Q6R32WPB)"]

/-- Outcome of `sign()`: either the unsupported-platform branch (prints
`Not signing things on this platform yet` and returns), or the list of files
it signed, one signing-tool invocation per listed file, in walk order.  A
file under the install root is its walk directory components paired with its
filename. -/
inductive SignOutcome : Type
  | unsupported
  | signed (files : List (List String × String))
deriving DecidableEq, Repr

/-- Model of `sign()`: resolves the signing tool, then on win/osx walks the install
root and invokes the tool once per file whose `os.path.splitext` extension is
in the platform's signable set, skipping every other file; on any other
platform it reports the platform as unsupported and returns. -/
def sign_run (platform : String) (env : String → Option String)
    (files : List (List String × String)) : Except String SignOutcome :=
  match get_signtool platform env with
  | .error e => .error e
  | .ok _ =>
    if platform = "win" ∨ platform = "osx" then
      .ok (SignOutcome.signed
        (files.filter (fun f => extOf f.2 ∈ signable_extensions platform)))
    else
      .ok SignOutcome.unsupported

/-! ## libs -/

/-- The filesystem/build effects of `libs`, in program order. -/
inductive LibsEffect : Type
  | rmtree (path : String) (ignore_errors : Bool)  -- `shutil.rmtree`
  | mkdir (path : String)                          -- `mkdir_p`
  | buildLib (name : String) (generator : Option String)
      (options : List (String × Bool))             -- one `build_lib` call
deriving DecidableEq, Repr

/-- Model of `libs(clean)`: when `clean` it first runs
`shutil.rmtree('builds', ignore_errors=True)`, then always `mkdir_p('builds')`,
then invokes `build_lib` once per entry of the platform's static
configuration table, in source order.  Option dictionaries are embedded as
association lists in Python insertion order; `SIGN_BUILD` carries the
`IS_BUILD_MACHINE` value `ci`. -/
def libs_trace (platform : String) (clean : Bool) (ci : Bool) : List LibsEffect :=
  (if clean then [LibsEffect.rmtree "builds" true] else [])
  ++ [LibsEffect.mkdir "builds"]
  ++ (if platform = "win" then
        [LibsEffect.buildLib "win32-static" (some "Visual Studio 14 2015") [],
         LibsEffect.buildLib "win32-dynamic" (some "Visual Studio 14 2015")
           [("BUILD_SHARED_LIBS", true), ("USE_STATIC_CRT", true), ("SIGN_BUILD", ci)],
         LibsEffect.buildLib "win64-static" (some "Visual Studio 14 2015 Win64") [],
         LibsEffect.buildLib "win64-dynamic" (some "Visual Studio 14 2015 Win64")
           [("BUILD_SHARED_LIBS", true), ("USE_STATIC_CRT", true), ("SIGN_BUILD", ci)]]
      else if platform = "osx" then
        [LibsEffect.buildLib "osx-static" none [],
         LibsEffect.buildLib "osx-dynamic" none
           [("BUILD_SHARED_LIBS", true), ("SIGN_BUILD", ci)]]
      else if platform = "linux" then
        [LibsEffect.buildLib "linux-static" none [],
         LibsEffect.buildLib "linux-dynamic" none [("BUILD_SHARED_LIBS", true)]]
      else [])

/-- The `build_lib` invocations of a `libs` trace, in order. -/
def build_lib_calls (t : List LibsEffect) :
    List (String × Option String × List (String × Bool)) :=
  t.filterMap (fun e =>
    match e with
    | LibsEffect.buildLib n g o => some (n, g, o)
    | _ => none)

/-! ## Helper lemmas -/

lemma startswith_head (s p : String) (c : Char) (cs : List Char)
    (hp : p.data = c :: cs) (h : startswith s p = true) :
    ∃ t, s.data = c :: t := by
  rw [startswith, hp] at h
  cases hs : s.data with
  | nil => rw [hs] at h; simp [List.isPrefixOf] at h
  | cons b bs =>
    rw [hs] at h
    simp [List.isPrefixOf] at h
    exact ⟨bs, by rw [h.1]⟩

lemma startswith_linux_not_win (s : String) (h : startswith s "linux" = true) :
    startswith s "win" = false := by
  obtain ⟨t, ht⟩ := startswith_head s "linux" 'l' ['i', 'n', 'u', 'x'] rfl h
  rw [startswith, ht]
  have hwl : ('w' == 'l') = false := by decide
  simp [List.isPrefixOf, hwl]

lemma startswith_linux_ne_darwin (s : String) (h : startswith s "linux" = true) :
    s ≠ "darwin" := by
  obtain ⟨t, ht⟩ := startswith_head s "linux" 'l' ['i', 'n', 'u', 'x'] rfl h
  intro he
  rw [he] at ht
  have hd : ("darwin" : String).data = 'd' :: ['a', 'r', 'w', 'i', 'n'] := rfl
  rw [hd] at ht
  injection ht with h1 _
  exact absurd h1 (by decide)

lemma count_filter_eq {α : Type} [BEq α] [LawfulBEq α] (p : α → Bool) (l : List α)
    (a : α) :
    (l.filter p).count a = if p a = true then l.count a else 0 := by
  by_cases h : p a = true
  · rw [if_pos h, List.count_filter h]
  · rw [if_neg h]
    refine List.count_eq_zero.mpr ?_
    intro hmem
    exact h (List.mem_filter.mp hmem).2

/-! ## Claims -/

/-- C1: the spec asserts that `cd` restores the prior working directory on
both normal and exceptional exit of `build_lib`.  The code's `cd` generator
has no `try`/`finally`, so the restoring `os.chdir(old_dir)` is skipped when
an invoked command raises: a `build_lib` run whose configuration command
fails ends with the process still in the build directory, while a fully
successful run does restore the prior directory. -/
theorem C1_cd_not_restored_on_error :
    (build_lib_run "/repo" "linux-static" none [] false (fun _ => true) "/repo").2 = "/repo"
    ∧ (build_lib_run "/repo" "linux-static" none [] false (fun _ => false) "/repo").1
        = Except.error "CalledProcessError: cmake /repo -DCMAKE_INSTALL_PREFIX=../install/linux-static"
    ∧ (build_lib_run "/repo" "linux-static" none [] false (fun _ => false) "/repo").2
        = "/repo/builds/linux-static"
    ∧ ("/repo/builds/linux-static" : String) ≠ "/repo" :=
  ⟨rfl, rfl, rfl, by decide⟩

/-- C2: the default CLI invocation (no subcommand) performs exactly
`libs(clean)`, then `sign` only when the CI indicator is set, then `archive`,
in that order; without the CI indicator, `sign` is not invoked. -/
theorem C2_cli_default_sequence (clean ci : Bool) :
    (ci = true → cli_run none clean ci
        = [CliAction.libs clean, CliAction.sign, CliAction.archive])
    ∧ (ci = false →
        cli_run none clean ci = [CliAction.libs clean, CliAction.archive]
        ∧ CliAction.sign ∉ cli_run none clean ci) := by
  cases ci <;> simp [cli_run]

theorem C2_cli_default_sequence_witness :
    cli_run none true true = [CliAction.libs true, CliAction.sign, CliAction.archive]
    ∧ cli_run none true false = [CliAction.libs true, CliAction.archive]
    ∧ CliAction.sign ∉ cli_run none true false :=
  ⟨(C2_cli_default_sequence true true).1 rfl,
   ((C2_cli_default_sequence true false).2 rfl).1,
   ((C2_cli_default_sequence true false).2 rfl).2⟩

/-- C3: `libs` invokes `build_lib` exactly once per entry of the static
per-platform configuration table, in listed order: two configurations on
linux (`linux-static` with no generator and no options, then `linux-dynamic`
with `BUILD_SHARED_LIBS` on), two on osx, four on win. -/
theorem C3_libs_config_table (clean ci : Bool) :
    build_lib_calls (libs_trace "linux" clean ci)
      = [("linux-static", none, []),
         ("linux-dynamic", none, [("BUILD_SHARED_LIBS", true)])]
    ∧ build_lib_calls (libs_trace "osx" clean ci)
      = [("osx-static", none, []),
         ("osx-dynamic", none, [("BUILD_SHARED_LIBS", true), ("SIGN_BUILD", ci)])]
    ∧ build_lib_calls (libs_trace "win" clean ci)
      = [("win32-static", some "Visual Studio 14 2015", []),
         ("win32-dynamic", some "Visual Studio 14 2015",
            [("BUILD_SHARED_LIBS", true), ("USE_STATIC_CRT", true), ("SIGN_BUILD", ci)]),
         ("win64-static", some "Visual Studio 14 2015 Win64", []),
         ("win64-dynamic", some "Visual Studio 14 2015 Win64",
            [("BUILD_SHARED_LIBS", true), ("USE_STATIC_CRT", true), ("SIGN_BUILD", ci)])]
    ∧ (build_lib_calls (libs_trace "linux" clean ci)).length = 2
    ∧ (build_lib_calls (libs_trace "osx" clean ci)).length = 2
    ∧ (build_lib_calls (libs_trace "win" clean ci)).length = 4 := by
  cases clean <;> cases ci <;> exact ⟨rfl, rfl, rfl, rfl, rfl, rfl⟩

/-- C8 (amended): platform detection returns `win` for identifiers starting
with `win`, `osx` for the identifier exactly `darwin` (not for every
identifier beginning with `darwin`), and `linux` for identifiers starting
with `linux`; every other identifier raises an unrecoverable error, and any
returned tag is one of the three. -/
theorem C8_get_platform_cases (s : String) :
    (startswith s "win" = true → get_platform s = .ok "win")
    ∧ (s = "darwin" → get_platform s = .ok "osx")
    ∧ (startswith s "linux" = true → get_platform s = .ok "linux")
    ∧ (startswith s "win" = false → s ≠ "darwin" → startswith s "linux" = false →
        get_platform s = .error ("Unsupported platform " ++ s))
    ∧ (∀ t, get_platform s = .ok t → t = "win" ∨ t = "osx" ∨ t = "linux") := by
  refine ⟨?_, ?_, ?_, ?_, ?_⟩
  · intro h; simp [get_platform, h]
  · intro h; subst h; rfl
  · intro h
    have h1 := startswith_linux_not_win s h
    have h2 := startswith_linux_ne_darwin s h
    simp [get_platform, h, h1, h2]
  · intro h1 h2 h3; simp [get_platform, h1, h2, h3]
  · intro t h
    unfold get_platform at h
    split_ifs at h <;> simp_all

theorem C8_get_platform_cases_witness :
    get_platform "winux" = .ok "win"
    ∧ get_platform "darwin" = .ok "osx"
    ∧ get_platform "linux2" = .ok "linux"
    ∧ get_platform "freebsd" = .error ("Unsupported platform " ++ "freebsd") :=
  ⟨(C8_get_platform_cases "winux").1 rfl,
   (C8_get_platform_cases "darwin").2.1 rfl,
   (C8_get_platform_cases "linux2").2.2.1 rfl,
   (C8_get_platform_cases "freebsd").2.2.2.1 rfl (by decide) rfl⟩

/-- C8 counterexample: the identifier `darwin1` begins with the known prefix
`darwin`, yet platform detection raises instead of returning a platform tag:
the code compares `darwin` by equality, not as a prefix. -/
theorem C8_counterexample :
    startswith "darwin1" "darwin" = true
    ∧ get_platform "darwin1" = .error "Unsupported platform darwin1" :=
  ⟨rfl, rfl⟩

lemma foldl_normSt_of_valid : ∀ (comps acc : List String),
    (∀ c ∈ comps, c ≠ "" ∧ c ≠ "." ∧ c ≠ "..") →
    comps.foldl normSt acc = comps.reverse ++ acc := by
  intro comps
  induction comps with
  | nil => intro acc _; simp
  | cons c cs ih =>
    intro acc h
    have hc := h c (List.mem_cons_self c cs)
    have hcs : ∀ x ∈ cs, x ≠ "" ∧ x ≠ "." ∧ x ≠ ".." :=
      fun x hx => h x (List.mem_cons_of_mem c hx)
    rw [List.foldl_cons]
    have hn : normSt acc c = c :: acc := by
      simp [normSt, hc.1, hc.2.1, hc.2.2]
    rw [hn, ih (c :: acc) hcs]
    simp

lemma archive_dst_of_valid (comps : List String)
    (h : ∀ c ∈ comps, c ≠ "" ∧ c ≠ "." ∧ c ≠ "..") :
    archive_dst comps = "discord-rpc" :: comps := by
  unfold archive_dst normpath_comps
  simp only [List.foldl_cons]
  rw [show normSt [] "discord-rpc" = ["discord-rpc"] from rfl,
      show normSt ["discord-rpc"] "." = ["discord-rpc"] from rfl,
      foldl_normSt_of_valid comps ["discord-rpc"] h]
  simp

/-- C4: `archive` writes into the zip exactly one entry per file under the
install root, in walk order, and every entry's internal path is
`discord-rpc` joined with the file's path relative to the install root, so
every internal path begins with the `discord-rpc` root component. -/
theorem C4_archive_exact_entries (files : List (List String))
    (h : ∀ comps ∈ files, ∀ c ∈ comps, c ≠ "" ∧ c ≠ "." ∧ c ≠ "..") :
    archive_entries files
      = files.map (fun comps => ("." :: comps, "discord-rpc" :: comps))
    ∧ (archive_entries files).length = files.length
    ∧ ∀ e ∈ archive_entries files, e.2.head? = some "discord-rpc" := by
  have hmap : archive_entries files
      = files.map (fun comps => ("." :: comps, "discord-rpc" :: comps)) := by
    unfold archive_entries
    exact List.map_congr_left fun comps hc => by
      rw [archive_dst_of_valid comps (h comps hc)]
  refine ⟨hmap, by rw [hmap]; simp, ?_⟩
  rw [hmap]
  intro e he
  obtain ⟨comps, _, rfl⟩ := List.mem_map.mp he
  rfl

theorem C4_archive_exact_entries_witness :
    archive_entries [["osx-dynamic", "lib", "libdiscord-rpc.dylib"],
                     ["osx-dynamic", "include", "discord_rpc.h"]]
      = [["osx-dynamic", "lib", "libdiscord-rpc.dylib"],
         ["osx-dynamic", "include", "discord_rpc.h"]].map
          (fun comps => ("." :: comps, "discord-rpc" :: comps)) :=
  (C4_archive_exact_entries
    [["osx-dynamic", "lib", "libdiscord-rpc.dylib"],
     ["osx-dynamic", "include", "discord_rpc.h"]] (by decide)).1

/-- C5: on a supported signing platform (`win` or `osx`, with the Windows
SDK variable present on `win`), `sign` succeeds and invokes the signing tool
exactly on the files whose extension is in that platform's signable set, in
walk order: each matching file is signed exactly as often as it occurs in
the walk, and files with non-matching extensions are signed zero times. -/
theorem C5_sign_signs_matching_files (platform : String)
    (env : String → Option String) (files : List (List String × String))
    (hsup : platform = "win" ∨ platform = "osx")
    (henv : platform = "win" → (env "WindowsSdkDir").isSome = true) :
    sign_run platform env files
      = .ok (SignOutcome.signed
          (files.filter (fun f => extOf f.2 ∈ signable_extensions platform)))
    ∧ ∀ f : List String × String,
        (files.filter (fun f => extOf f.2 ∈ signable_extensions platform)).count f
          = if extOf f.2 ∈ signable_extensions platform then files.count f else 0 := by
  constructor
  · rcases hsup with h | h
    · subst h
      obtain ⟨sdk, hsdk⟩ := Option.isSome_iff_exists.mp (henv rfl)
      simp [sign_run, get_signtool, hsdk]
    · subst h
      simp [sign_run, get_signtool]
  · intro f
    rw [count_filter_eq]
    simp

theorem C5_sign_signs_matching_files_witness :
    sign_run "osx" (fun _ => none)
        [(["osx-dynamic", "lib"], "libdiscord-rpc.dylib"),
         (["osx-dynamic", "include"], "discord_rpc.h")]
      = .ok (SignOutcome.signed [(["osx-dynamic", "lib"], "libdiscord-rpc.dylib")]) :=
  ((C5_sign_signs_matching_files "osx" (fun _ => none)
      [(["osx-dynamic", "lib"], "libdiscord-rpc.dylib"),
       (["osx-dynamic", "include"], "discord_rpc.h")]
      (Or.inr rfl) (fun hc => absurd hc (by decide))).1).trans rfl

/-- C6: on a platform other than `win` and `osx`, `sign` resolves no signing
tool (`get_signtool` returns `None`), performs zero signing invocations,
reports the platform as unsupported and returns successfully. -/
theorem C6_sign_unsupported_platform (platform : String)
    (env : String → Option String) (files : List (List String × String))
    (h1 : platform ≠ "win") (h2 : platform ≠ "osx") :
    sign_run platform env files = .ok SignOutcome.unsupported
    ∧ get_signtool platform env = .ok none := by
  constructor
  · simp [sign_run, get_signtool, h1, h2]
  · simp [get_signtool, h1, h2]

theorem C6_sign_unsupported_platform_witness :
    sign_run "linux" (fun _ => none) [([], "libdiscord-rpc.so"), ([], "a.dylib")]
      = .ok SignOutcome.unsupported
    ∧ get_signtool "linux" (fun _ => none) = .ok none :=
  C6_sign_unsupported_platform "linux" (fun _ => none)
    [([], "libdiscord-rpc.so"), ([], "a.dylib")] (by decide) (by decide)

lemma initial_cmake_third (sp bn : String) (g : Option String)
    (opts : List (String × Bool)) (ci : Bool) :
    (initial_cmake sp bn g opts ci)[2]?
      = some ("-DCMAKE_INSTALL_PREFIX=" ++ "../install/" ++ bn) := by
  simp [initial_cmake]

lemma initial_cmake_ne_of_third_dot (sp bn : String) (g : Option String)
    (opts : List (String × Bool)) (ci : Bool) (cmd : List String)
    (hc : cmd[2]? = some ".") :
    initial_cmake sp bn g opts ci ≠ cmd := by
  intro h
  have h2 : (initial_cmake sp bn g opts ci)[2]? = cmd[2]? := by rw [h]
  rw [initial_cmake_third, hc] at h2
  have h2' : ("-DCMAKE_INSTALL_PREFIX=" ++ "../install/" ++ bn) = "." :=
    Option.some.inj h2
  have h3 := congrArg String.length h2'
  rw [String.length_append, String.length_append] at h3
  have e1 : ("-DCMAKE_INSTALL_PREFIX=" : String).length = 23 := rfl
  have e2 : ("../install/" : String).length = 11 := rfl
  have e3 : ("." : String).length = 1 := rfl
  rw [e1, e2, e3] at h3
  omega

lemma executed_cmds_singleton (ok : List String → Bool) (c : List String) :
    executed_cmds ok [c] = [c] := by
  simp [executed_cmds]

/-- C7 (amended): in a `build_lib` run whose configuration step succeeds and
whose Debug step — run only outside CI — also succeeds, the Release/install
build step is always invoked, and the Debug build step is invoked, between
the configuration step and the Release step, exactly when the process is not
on a build machine.  (A failing Debug step aborts the run before the Release
step, which is why Debug success is assumed.) -/
theorem C7_build_lib_release_and_debug (sp bn : String) (g : Option String)
    (opts : List (String × Bool)) (ci : Bool) (ok : List String → Bool)
    (hcfg : ok (initial_cmake sp bn g opts ci) = true)
    (hdbg : ci = false → ok debug_build_cmd = true) :
    release_install_cmd ∈ executed_cmds ok (build_lib_cmds sp bn g opts ci)
    ∧ (debug_build_cmd ∈ executed_cmds ok (build_lib_cmds sp bn g opts ci)
        ↔ ci = false)
    ∧ (ci = false → executed_cmds ok (build_lib_cmds sp bn g opts ci)
        = [initial_cmake sp bn g opts false, debug_build_cmd, release_install_cmd])
    ∧ (ci = true → executed_cmds ok (build_lib_cmds sp bn g opts ci)
        = [initial_cmake sp bn g opts true, release_install_cmd]) := by
  cases ci with
  | false =>
    have hd := hdbg rfl
    have he : executed_cmds ok (build_lib_cmds sp bn g opts false)
        = [initial_cmake sp bn g opts false, debug_build_cmd, release_install_cmd] := by
      simp [build_lib_cmds, executed_cmds, hcfg, hd, executed_cmds_singleton]
    rw [he]
    refine ⟨?_, ?_, ?_, ?_⟩
    · simp
    · simp
    · intro _; rfl
    · intro h; exact absurd h (by decide)
  | true =>
    have hne1 : initial_cmake sp bn g opts true ≠ debug_build_cmd :=
      initial_cmake_ne_of_third_dot sp bn g opts true debug_build_cmd rfl
    have hne2 : debug_build_cmd ≠ release_install_cmd := by decide
    have he : executed_cmds ok (build_lib_cmds sp bn g opts true)
        = [initial_cmake sp bn g opts true, release_install_cmd] := by
      simp [build_lib_cmds, executed_cmds, hcfg, executed_cmds_singleton]
    rw [he]
    refine ⟨?_, ?_, ?_, ?_⟩
    · simp
    · constructor
      · intro hmem
        simp at hmem
        rcases hmem with hmem | hmem
        · exact absurd hmem.symm hne1
        · exact absurd hmem hne2
      · intro h; exact absurd h (by decide)
    · intro h; exact absurd h (by decide)
    · intro _; rfl

theorem C7_build_lib_release_and_debug_witness :
    release_install_cmd
      ∈ executed_cmds (fun _ => true) (build_lib_cmds "/repo" "linux-static" none [] false)
    ∧ (debug_build_cmd
        ∈ executed_cmds (fun _ => true) (build_lib_cmds "/repo" "linux-static" none [] false)
        ↔ false = false) :=
  ⟨(C7_build_lib_release_and_debug "/repo" "linux-static" none [] false
      (fun _ => true) rfl (fun _ => rfl)).1,
   (C7_build_lib_release_and_debug "/repo" "linux-static" none [] false
      (fun _ => true) rfl (fun _ => rfl)).2.1⟩

/-- C7 counterexample: with the configuration command succeeding but the
Debug build command failing (outside CI), `build_lib` invokes the
configuration and Debug steps and aborts without ever invoking the
Release/install step — so a successful configuration alone does not
guarantee the Release step runs. -/
theorem C7_counterexample :
    (fun c => decide (c ≠ debug_build_cmd))
        (initial_cmake "/repo" "linux-static" none [] false) = true
    ∧ executed_cmds (fun c => decide (c ≠ debug_build_cmd))
        (build_lib_cmds "/repo" "linux-static" none [] false)
      = [initial_cmake "/repo" "linux-static" none [] false, debug_build_cmd]
    ∧ release_install_cmd ∉ executed_cmds (fun c => decide (c ≠ debug_build_cmd))
        (build_lib_cmds "/repo" "linux-static" none [] false) := by
  refine ⟨?_, ?_, ?_⟩ <;> decide

/-- C9: `libs` with clean=true first recursively removes the whole `builds`
directory with `ignore_errors=True` (so a missing directory is not an error)
and its trace is exactly the removal followed by the clean=false trace; with
clean=false no removal effect occurs anywhere in the trace, which starts
directly with recreating the `builds` directory. -/
theorem C9_libs_clean_behavior (platform : String) (ci : Bool) :
    libs_trace platform true ci
      = LibsEffect.rmtree "builds" true :: libs_trace platform false ci
    ∧ (libs_trace platform true ci).head? = some (LibsEffect.rmtree "builds" true)
    ∧ (∀ e ∈ libs_trace platform false ci, ∀ pa b, e ≠ LibsEffect.rmtree pa b)
    ∧ (libs_trace platform false ci).head? = some (LibsEffect.mkdir "builds") := by
  refine ⟨by simp [libs_trace], by simp [libs_trace], ?_, by simp [libs_trace]⟩
  intro e he pa b heq
  subst heq
  simp [libs_trace] at he
  split_ifs at he <;> simp_all

theorem C9_libs_clean_behavior_witness :
    libs_trace "linux" true false
      = LibsEffect.rmtree "builds" true :: libs_trace "linux" false false
    ∧ LibsEffect.mkdir "builds" ≠ LibsEffect.rmtree "builds" true :=
  ⟨(C9_libs_clean_behavior "linux" false).1,
   (C9_libs_clean_behavior "linux" false).2.2.1
     (LibsEffect.mkdir "builds") (by decide) "builds" true⟩

/-- C10: `archive` creates (truncating) the output zip file as its very
first filesystem effect, before changing into the install root or visiting
any file; consequently when the install root does not exist the operation
raises while the freshly created, empty archive file is already on disk. -/
theorem C10_archive_zip_created_first (sp p : String)
    (files : List (List String)) (b : Bool) :
    ((archive_run sp p b files).1).head?
      = some (ArchiveEffect.createZip (sp ++ "/builds/discord-rpc-" ++ p ++ ".zip"))
    ∧ (b = false →
        (archive_run sp p b files).1
          = [ArchiveEffect.createZip (sp ++ "/builds/discord-rpc-" ++ p ++ ".zip")]
        ∧ (archive_run sp p b files).2 = .error "FileNotFoundError") := by
  cases b
  · exact ⟨rfl, fun _ => ⟨rfl, rfl⟩⟩
  · exact ⟨rfl, fun h => nomatch h⟩

theorem C10_archive_zip_created_first_witness :
    (archive_run "/repo" "linux" false [["linux-static", "lib", "libdiscord-rpc.a"]]).1
      = [ArchiveEffect.createZip ("/repo" ++ "/builds/discord-rpc-" ++ "linux" ++ ".zip")]
    ∧ (archive_run "/repo" "linux" false [["linux-static", "lib", "libdiscord-rpc.a"]]).2
      = .error "FileNotFoundError" :=
  (C10_archive_zip_created_first "/repo" "linux"
    [["linux-static", "lib", "libdiscord-rpc.a"]] false).2 rfl
